import Mathlib

/-!
Verification of the rendering wrapper in src/sdl3/render.rs.

The Rust source is shallowly embedded: machine integers become Nat/Int
(u32 values are naturals below 2^32, c_int bounds are explicit, the
explicit `as u32` cast in the source is modelled as reduction mod 2^32),
fallible functions return Except, and calls into the opaque native SDL
engine are modelled by explicit parameters (a success flag, a last-error
string, or the value the engine would return).  Closures that may panic
are modelled by an outcome type with a dedicated constructor for the
panicking exit, so that the wrapper control flow around panics is visible.
-/

namespace Sdl3

/-- Largest value of the native c_int width (i32), 2^31 - 1. -/
def maxCInt : Nat := 2 ^ 31 - 1

/-- Modulus of the u32 type, used to model the explicit `as u32` cast that
the source applies to usize pitches before validating them. -/
def u32Mod : Nat := 2 ^ 32

/-- Modelled from the spec: validate_int from crate::common is not under
src/; the spec says values must fit the native integer width used by the
engine.  Returns the value as a c_int when it fits, and nothing when it
overflows. -/
def validate_int (value : Nat) : Option Nat :=
  if value ≤ maxCInt then Option.some value else Option.none

/-- Pixel format, identified by its raw SDL numeric code
(src/sdl3/render.rs uses crate::pixels::PixelFormat only through its raw
code in the functions verified here). -/
structure PixelFormat where
  raw : Nat
deriving DecidableEq

/-- Raw code of the planar 4:2:0 format YV12 (fourcc "YV12"). -/
def SDL_PIXELFORMAT_YV12 : Nat := 0x32315659

/-- Raw code of the planar 4:2:0 format IYUV (fourcc "IYUV"). -/
def SDL_PIXELFORMAT_IYUV : Nat := 0x56555949

/-- Raw code of a representative non-YUV format (RGBA8888). -/
def SDL_PIXELFORMAT_RGBA8888 : Nat := 0x16462004

/-- The condition matched at render.rs:906 and render.rs:2157: the pixel
format is planar 4:2:0 YUV (YV12 or IYUV). -/
def PixelFormat.isPlanarYuv (f : PixelFormat) : Prop :=
  f.raw = SDL_PIXELFORMAT_YV12 ∨ f.raw = SDL_PIXELFORMAT_IYUV

instance (f : PixelFormat) : Decidable f.isPlanarYuv := by
  unfold PixelFormat.isPlanarYuv
  infer_instance

/-- Modelled from the spec: Rect from crate::rect is not under src/; the
spec describes it as the integer rectangle value type carrying x, y
(position) and w, h (size). -/
structure Rect where
  x : Int
  y : Int
  w : Nat
  h : Nat
deriving DecidableEq

/-- Right edge of a rectangle (x + w). -/
def Rect.right (r : Rect) : Int := r.x + r.w

/-- Bottom edge of a rectangle (y + h). -/
def Rect.bottom (r : Rect) : Int := r.y + r.h

/-- The spec notion of two rectangles overlapping: each starts strictly
before the other ends, on both axes. -/
def Rect.overlaps (a b : Rect) : Prop :=
  a.x < b.right ∧ b.x < a.right ∧ a.y < b.bottom ∧ b.y < a.bottom

instance (a b : Rect) : Decidable (a.overlaps b) := by
  unfold Rect.overlaps
  infer_instance

/-- Geometric intersection of two overlapping rectangles: the largest
rectangle contained in both. -/
def Rect.geomIntersection (a b : Rect) : Rect :=
  { x := max a.x b.x
    y := max a.y b.y
    w := (min a.right b.right - max a.x b.x).toNat
    h := (min a.bottom b.bottom - max a.y b.y).toNat }

/-- Modelled from the spec: Rect::intersection from crate::rect is not
under src/; the spec describes it as geometric rectangle intersection
yielding nothing when the rectangles are disjoint. -/
def Rect.intersection (a b : Rect) : Option Rect :=
  if a.overlaps b then Option.some (a.geomIntersection b) else Option.none

/-- The tri-state clipping rectangle of render.rs:300-307. -/
inductive ClippingRect where
  | some (r : Rect)
  | zero
  | none
deriving DecidableEq

/-- Intersection algebra of ClippingRect, translated from
render.rs:325-338. -/
def ClippingRect.intersection : ClippingRect → ClippingRect → ClippingRect
  | .zero, _ => .zero
  | .none, other => other
  | .some selfRect, other =>
      match other with
      | .zero => .zero
      | .none => .some selfRect
      | .some rect =>
          match selfRect.intersection rect with
          | Option.some v => .some v
          | Option.none => .zero

/-- The intersect_rect operation of render.rs:341-365: shrink the clipping
rect to the part containing the given optional position rectangle. -/
def ClippingRect.intersect_rect (c : ClippingRect) (position : Option Rect) : ClippingRect :=
  match position with
  | Option.some position =>
      match c with
      | .some rect =>
          match rect.intersection position with
          | Option.some v => .some v
          | Option.none => .zero
      | .zero => .zero
      | .none => .some position
  | Option.none => .zero

/-- Texture access modes, from render.rs:84-90. -/
inductive TextureAccess where
  | static
  | streaming
  | target
deriving DecidableEq

/-- Errors of texture creation, from render.rs:844-850.  The SDL error
string is carried directly. -/
inductive TextureValueError where
  | widthOverflows (value : Nat)
  | heightOverflows (value : Nat)
  | widthMustBeMultipleOfTwoForFormat (value : Nat) (format : PixelFormat)
  | sdlError (e : String)
deriving DecidableEq

/-- Translation of ll_create_texture, render.rs:885-920.  The width and
height arguments are u32 values.  A returned ok means every validation
passed and the native SDL_CreateTexture call is reached. -/
def ll_create_texture (pixel_format : PixelFormat) (access : TextureAccess)
    (width height : Nat) : Except TextureValueError Unit :=
  match validate_int width with
  | Option.none => .error (.widthOverflows width)
  | Option.some w =>
      match validate_int height with
      | Option.none => .error (.heightOverflows height)
      | Option.some h =>
          if pixel_format.isPlanarYuv then
            if w % 2 ≠ 0 ∨ h % 2 ≠ 0 then
              .error (.widthMustBeMultipleOfTwoForFormat width pixel_format)
            else .ok ()
          else .ok ()

/-- Translation of TextureCreator::create_texture, render.rs:976-994: run
ll_create_texture, then report the engine last-error when the native call
returned a null texture.  The engineNull flag models whether
SDL_CreateTexture returned null, and lastError the engine last-error
string. -/
def create_texture (pixel_format : PixelFormat) (access : TextureAccess)
    (width height : Nat) (engineNull : Bool) (lastError : String) :
    Except TextureValueError Unit :=
  match ll_create_texture pixel_format access width height with
  | .error e => .error e
  | .ok _ => if engineNull then .error (.sdlError lastError) else .ok ()

/-- Errors of Texture::update, from render.rs:1843-1852. -/
inductive UpdateTextureError where
  | pitchOverflows (value : Nat)
  | pitchMustBeMultipleOfTwoForFormat (value : Nat) (format : PixelFormat)
  | xMustBeMultipleOfTwoForFormat (value : Int) (format : PixelFormat)
  | yMustBeMultipleOfTwoForFormat (value : Int) (format : PixelFormat)
  | widthMustBeMultipleOfTwoForFormat (value : Nat) (format : PixelFormat)
  | heightMustBeMultipleOfTwoForFormat (value : Nat) (format : PixelFormat)
  | sdlError (e : String)
deriving DecidableEq

/-- Translation of InternalTexture::update, render.rs:2135-2196.  The
format argument is the texture format read back from the engine
(self.get_format()); pitch is the usize pitch argument; native is the
outcome of the SDL_UpdateTexture call together with the trailing
error-mapping, so the result is native exactly when every validation
passed and the engine was invoked.  The source validates the pitch with
validate_int(pitch as u32), hence the reduction mod u32Mod. -/
def update (format : PixelFormat) (rect : Option Rect) (pitch : Nat)
    (native : Except UpdateTextureError Unit) : Except UpdateTextureError Unit := do
  if format.isPlanarYuv then
    match rect with
    | Option.some r =>
        if r.x % 2 ≠ 0 then
          throw (.xMustBeMultipleOfTwoForFormat r.x format)
        else if r.y % 2 ≠ 0 then
          throw (.yMustBeMultipleOfTwoForFormat r.y format)
        else if r.w % 2 ≠ 0 then
          throw (.widthMustBeMultipleOfTwoForFormat r.w format)
        else if r.h % 2 ≠ 0 then
          throw (.heightMustBeMultipleOfTwoForFormat r.h format)
        else pure ()
    | Option.none => pure ()
    if pitch % 2 ≠ 0 then
      throw (.pitchMustBeMultipleOfTwoForFormat pitch format)
  match validate_int (pitch % u32Mod) with
  | Option.none => throw (.pitchOverflows pitch)
  | Option.some _ => native

/-- Errors of Texture::update_yuv, from render.rs:1916-1934. -/
inductive UpdateTextureYUVError where
  | pitchOverflows (plane : String) (value : Nat)
  | invalidPlaneLength (plane : String) (length : Nat) (pitch : Nat) (height : Nat)
  | xMustBeMultipleOfTwoForFormat (value : Int)
  | yMustBeMultipleOfTwoForFormat (value : Int)
  | widthMustBeMultipleOfTwoForFormat (value : Nat)
  | heightMustBeMultipleOfTwoForFormat (value : Nat)
  | rectNotInsideTexture (r : Rect)
  | sdlError (e : String)
deriving DecidableEq

/-- Translation of InternalTexture::update_yuv, render.rs:2199-2327.
texWidth and texHeight are the texture dimensions read back from the
engine (self.get_width(), self.get_height()); the plane arguments carry
each slice byte length and its usize pitch; native is the outcome of the
SDL_UpdateYUVTexture call together with the trailing error-mapping, so
the result is native exactly when every validation passed and the engine
was invoked.  Pitches are validated with validate_int(pitch as u32),
hence the reduction mod u32Mod. -/
def update_yuv (texWidth texHeight : Nat) (rect : Option Rect)
    (yPlaneLen yPitch uPlaneLen uPitch vPlaneLen vPitch : Nat)
    (native : Except UpdateTextureYUVError Unit) : Except UpdateTextureYUVError Unit := do
  match rect with
  | Option.some r =>
      if r.x % 2 ≠ 0 then
        throw (.xMustBeMultipleOfTwoForFormat r.x)
      else if r.y % 2 ≠ 0 then
        throw (.yMustBeMultipleOfTwoForFormat r.y)
      else if r.w % 2 ≠ 0 then
        throw (.widthMustBeMultipleOfTwoForFormat r.w)
      else if r.h % 2 ≠ 0 then
        throw (.heightMustBeMultipleOfTwoForFormat r.h)
      else pure ()
  | Option.none => pure ()
  match rect with
  | Option.some r =>
      let texRect : Rect := ⟨0, 0, texWidth, texHeight⟩
      let inside : Bool :=
        match r.intersection texRect with
        | Option.some intersection => intersection == r
        | Option.none => false
      if !inside then throw (.rectNotInsideTexture r)
  | Option.none => pure ()
  let height :=
    match rect with
    | Option.some r => r.h
    | Option.none => texHeight
  if yPlaneLen ≠ yPitch * height then
    throw (.invalidPlaneLength "y" yPlaneLen yPitch height)
  if uPlaneLen ≠ uPitch * height / 2 then
    throw (.invalidPlaneLength "u" uPlaneLen uPitch (height / 2))
  if vPlaneLen ≠ vPitch * height / 2 then
    throw (.invalidPlaneLength "v" vPlaneLen vPitch (height / 2))
  match validate_int (yPitch % u32Mod) with
  | Option.none => throw (.pitchOverflows "y" yPitch)
  | Option.some _ => pure ()
  match validate_int (uPitch % u32Mod) with
  | Option.none => throw (.pitchOverflows "u" uPitch)
  | Option.some _ => pure ()
  match validate_int (vPitch % u32Mod) with
  | Option.none => throw (.pitchOverflows "v" vPitch)
  | Option.some _ => pure ()
  native

/-- Error type for render-target redirection, from render.rs:61-64.  The
enum has exactly one variant: every failure carries the engine last-error
string. -/
inductive TargetRenderError where
  | sdlError (e : String)
deriving DecidableEq

/-- The renderer-side state observable through this wrapper: the raw
pointer of the current render target texture (0 models the null pointer,
i.e. the original window or surface target). -/
structure RenderState where
  target : Nat
deriving DecidableEq

/-- Outcome of running a closure over the canvas: either a normal return
carrying the renderer state it left behind and a value, or a panic that
unwinds while the renderer state it left behind persists in the engine. -/
inductive CanvasOutcome (α : Type) where
  | ret (s : RenderState) (a : α)
  | panicked (s : RenderState)
deriving DecidableEq

/-- Translation of Canvas::with_texture_canvas, render.rs:688-701: read
the current raw target, set the target to the texture, run the closure,
then set the target back.  setTargetOk models, per requested raw target,
whether the native SDL_SetRenderTarget call succeeds (the state only
changes when it does); lastError is the engine last-error string.  A
panic in the closure propagates immediately: the restoring
set_raw_target call is not reached. -/
def with_texture_canvas (setTargetOk : Nat → Bool) (lastError : String)
    (s : RenderState) (textureRaw : Nat)
    (f : RenderState → CanvasOutcome Unit) :
    CanvasOutcome (Except TargetRenderError Unit) :=
  let target := s.target
  if setTargetOk textureRaw then
    match f ⟨textureRaw⟩ with
    | .panicked s2 => .panicked s2
    | .ret s2 _ =>
        if setTargetOk target then .ret ⟨target⟩ (.ok ())
        else .ret s2 (.error (.sdlError lastError))
  else .ret s (.error (.sdlError lastError))

/-- Modelled from the spec: PixelFormat::byte_size_from_pitch_and_height
from crate::pixels is not under src/; the spec says the accessible byte
count is computed from pitch and height by the format byte-size rule,
with planar YUV formats adding two chroma planes at half resolution in
each dimension. -/
def byte_size_from_pitch_and_height (format : PixelFormat) (pitch height : Nat) : Nat :=
  if format.isPlanarYuv then
    pitch * height + 2 * (pitch / 2 * height / 2)
  else pitch * height

/-- The height used by with_lock, render.rs:2339-2345: the rect height
when a rect is supplied, the texture height otherwise. -/
def lock_height (rect : Option Rect) (texHeight : Nat) : Nat :=
  match rect with
  | Option.some r => r.h
  | Option.none => texHeight

/-- The byte slice handed to the with_lock closure, render.rs:2349-2353:
the engine memory at the returned pixel pointer (modelled as a function
from byte offset to byte value), cut to the computed byte size. -/
def locked_interior (format : PixelFormat) (pitch : Nat) (mem : Nat → Nat)
    (height : Nat) : List Nat :=
  (List.range (byte_size_from_pitch_and_height format pitch height)).map mem

/-- Outcome of the with_lock closure: a normal return with a value, or a
panic. -/
inductive LockOutcome (α : Type) where
  | ret (a : α)
  | panicked
deriving DecidableEq

/-- Translation of InternalTexture::with_lock, render.rs:2330-2370.
engine models the SDL_LockTexture call: on success it supplies the
returned pitch and the memory behind the returned pixel pointer; on
failure it is none and lastError is the engine last-error.  texHeight and
format are the texture properties read back from the engine.  The first
component of the result is the propagated outcome; the second records
whether the texture is still locked when the call exits (SDL_UnlockTexture
runs only after a normal closure return, so a panicking closure leaves the
texture locked). -/
def with_lock {α : Type} (engine : Option (Nat × (Nat → Nat))) (lastError : String)
    (format : PixelFormat) (texHeight : Nat) (rect : Option Rect)
    (f : List Nat → Nat → LockOutcome α) : LockOutcome (Except String α) × Bool :=
  match engine with
  | Option.none => (.ret (.error lastError), false)
  | Option.some (pitch, mem) =>
      let height := lock_height rect texHeight
      let interior := locked_interior format pitch mem height
      match f interior pitch with
      | .panicked => (.panicked, true)
      | .ret result => (.ret (.ok result), false)

/-- Outcome of a wrapper call that can abort the process instead of
returning: a normal return or a panic with its message. -/
inductive PanicOr (α : Type) where
  | ret (a : α)
  | panicked (msg : String)
deriving DecidableEq

/-- Translation of Canvas::set_draw_color, render.rs:1110-1117: panics
with the engine last-error when the native call fails.  engineOk models
the SDL_SetRenderDrawColor result. -/
def set_draw_color (engineOk : Bool) (lastError : String) : PanicOr Unit :=
  if engineOk then .ret () else .panicked lastError

/-- Translation of Canvas::clear, render.rs:1163-1168: panics with a
prefixed engine last-error when the native call fails. -/
def clear (engineOk : Bool) (lastError : String) : PanicOr Unit :=
  if engineOk then .ret () else .panicked ("Could not clear: " ++ lastError)

/-- Translation of Canvas::set_viewport, render.rs:1243-1251: panics with
a prefixed engine last-error when the native call fails. -/
def set_viewport (engineOk : Bool) (lastError : String) : PanicOr Unit :=
  if engineOk then .ret () else .panicked ("Could not set viewport: " ++ lastError)

/-- Translation of Canvas::set_clip_rect, render.rs:1264-1290: panics
with a prefixed engine last-error when the native call fails. -/
def set_clip_rect (engineOk : Bool) (lastError : String) : PanicOr Unit :=
  if engineOk then .ret () else .panicked ("Could not set clip rect: " ++ lastError)

/-- Translation of Canvas::set_scale, render.rs:1313-1321: returns the
engine last-error as a recoverable value when the native call fails. -/
def set_scale (engineOk : Bool) (lastError : String) : Except String Unit :=
  if engineOk then .ok () else .error lastError

/-- Translation of Canvas::draw_point, render.rs:1335-1343 (the same
shape as draw_points, draw_line, draw_lines, draw_rect, draw_rects,
fill_rect and fill_rects): returns the engine last-error as a recoverable
value when the native call fails. -/
def draw_point (engineOk : Bool) (lastError : String) : Except String Unit :=
  if engineOk then .ok () else .error lastError

/-- Translation of Canvas::copy, render.rs:1487-1515: returns the engine
last-error as a recoverable value when the native call fails. -/
def copy (engineOk : Bool) (lastError : String) : Except String Unit :=
  if engineOk then .ok () else .error lastError

/-- Translation of Canvas::copy_ex, render.rs:1531-1590: returns the
engine last-error as a recoverable value when the native call fails. -/
def copy_ex (engineOk : Bool) (lastError : String) : Except String Unit :=
  if engineOk then .ok () else .error lastError

/-- The render driver iterator, render.rs:2823-2827: an index bounded by
the compiled-in driver count. -/
structure DriverIterator where
  length : Int
  index : Int
deriving DecidableEq

/-- Translation of the Iterator::next implementation for DriverIterator,
render.rs:2834-2847.  names models SDL_GetRenderDriver, the read-only
table of driver names compiled into the engine.  Returns the yielded
item together with the advanced iterator. -/
def DriverIterator.next (names : Int → String) (it : DriverIterator) :
    Option String × DriverIterator :=
  if it.index ≥ it.length then (Option.none, it)
  else (Option.some (names it.index), ⟨it.length, it.index + 1⟩)

/-- The iterator state after one next call. -/
def DriverIterator.step (names : Int → String) (it : DriverIterator) : DriverIterator :=
  (it.next names).2

/-- Translation of drivers(), render.rs:2861-2869: a fresh iterator over
the compiled-in driver count n (SDL_GetNumRenderDrivers), starting at
index 0.  The construction touches no other state. -/
def drivers (n : Int) : DriverIterator := ⟨n, 0⟩

/-- C4: ClippingRect intersection satisfies the identity law for None and
the absorption law for Zero, and on two Some rectangles it yields Zero
exactly when the rectangles do not overlap and Some of their geometric
intersection otherwise. -/
theorem clippingRect_intersection_laws :
    (∀ x : ClippingRect, ClippingRect.none.intersection x = x) ∧
    (∀ x : ClippingRect, ClippingRect.zero.intersection x = ClippingRect.zero) ∧
    (∀ r1 r2 : Rect,
      ((ClippingRect.some r1).intersection (ClippingRect.some r2) = ClippingRect.zero ↔
        ¬ r1.overlaps r2) ∧
      (r1.overlaps r2 →
        (ClippingRect.some r1).intersection (ClippingRect.some r2) =
          ClippingRect.some (r1.geomIntersection r2))) := by
  refine ⟨fun x => rfl, fun x => rfl, fun r1 r2 => ⟨?_, ?_⟩⟩
  · by_cases h : r1.overlaps r2
    · simp [ClippingRect.intersection, Rect.intersection, h]
    · simp [ClippingRect.intersection, Rect.intersection, h]
  · intro h
    simp [ClippingRect.intersection, Rect.intersection, h]

/-- Witness for C4 on concrete rectangles: two overlapping rectangles
intersect to Some of their geometric intersection. -/
theorem clippingRect_intersection_laws_witness :
    (ClippingRect.some ⟨0, 0, 4, 4⟩).intersection (ClippingRect.some ⟨2, 2, 4, 4⟩) =
      ClippingRect.some ((⟨0, 0, 4, 4⟩ : Rect).geomIntersection ⟨2, 2, 4, 4⟩) :=
  (clippingRect_intersection_laws.2.2 ⟨0, 0, 4, 4⟩ ⟨2, 2, 4, 4⟩).2 (by decide)

/-- Helper: the shape of ll_create_texture once both dimensions fit the
native integer width. -/
theorem ll_create_texture_of_fits (format : PixelFormat) (access : TextureAccess)
    (w h : Nat) (hw : w ≤ maxCInt) (hh : h ≤ maxCInt) :
    ll_create_texture format access w h =
      if format.isPlanarYuv then
        if w % 2 ≠ 0 ∨ h % 2 ≠ 0 then
          .error (.widthMustBeMultipleOfTwoForFormat w format)
        else .ok ()
      else .ok () := by
  simp [ll_create_texture, validate_int, hw, hh]

/-- C2: ll_create_texture rejects dimensions that do not fit the native
integer width with the matching overflow error before any parity check;
for planar YV12 and IYUV formats it succeeds exactly when both dimensions
are even and otherwise fails with the dedicated multiple-of-two error;
for all other formats no parity check is applied; in particular a 63 by 64
YV12 texture fails with the width-parity error and a 64 by 64 non-YUV
texture passes validation. -/
theorem ll_create_texture_validation :
    (∀ (format : PixelFormat) (access : TextureAccess) (w h : Nat),
      maxCInt < w → ll_create_texture format access w h = .error (.widthOverflows w)) ∧
    (∀ (format : PixelFormat) (access : TextureAccess) (w h : Nat),
      w ≤ maxCInt → maxCInt < h →
      ll_create_texture format access w h = .error (.heightOverflows h)) ∧
    (∀ (format : PixelFormat) (access : TextureAccess) (w h : Nat),
      w ≤ maxCInt → h ≤ maxCInt → format.isPlanarYuv →
      (ll_create_texture format access w h = .ok () ↔ (w % 2 = 0 ∧ h % 2 = 0)) ∧
      (¬ (w % 2 = 0 ∧ h % 2 = 0) →
        ll_create_texture format access w h =
          .error (.widthMustBeMultipleOfTwoForFormat w format))) ∧
    (∀ (format : PixelFormat) (access : TextureAccess) (w h : Nat),
      w ≤ maxCInt → h ≤ maxCInt → ¬ format.isPlanarYuv →
      ll_create_texture format access w h = .ok ()) ∧
    ll_create_texture ⟨SDL_PIXELFORMAT_YV12⟩ .static 63 64 =
      .error (.widthMustBeMultipleOfTwoForFormat 63 ⟨SDL_PIXELFORMAT_YV12⟩) ∧
    ll_create_texture ⟨SDL_PIXELFORMAT_RGBA8888⟩ .static 64 64 = .ok () := by
  refine ⟨?_, ?_, ?_, ?_, ?_, ?_⟩
  · intro format access w h hw
    simp [ll_create_texture, validate_int, Nat.not_le.mpr hw]
  · intro format access w h hw hh
    simp [ll_create_texture, validate_int, hw, Nat.not_le.mpr hh]
  · intro format access w h hw hh hyuv
    rw [ll_create_texture_of_fits format access w h hw hh]
    constructor
    · by_cases hpar : w % 2 = 0 ∧ h % 2 = 0
      · simp [hyuv, hpar.1, hpar.2]
      · have hodd : w % 2 ≠ 0 ∨ h % 2 ≠ 0 := by tauto
        simp only [if_pos hyuv, if_pos hodd]
        constructor
        · intro hcontra
          exact absurd hcontra (by simp)
        · intro hcontra
          exact absurd hcontra hpar
    · intro hpar
      have hodd : w % 2 ≠ 0 ∨ h % 2 ≠ 0 := by tauto
      simp [hyuv, hodd]
      omega
  · intro format access w h hw hh hother
    rw [ll_create_texture_of_fits format access w h hw hh]
    simp [hother]
  · rw [ll_create_texture_of_fits _ _ _ _ (by decide) (by decide)]
    simp [PixelFormat.isPlanarYuv, SDL_PIXELFORMAT_YV12, SDL_PIXELFORMAT_IYUV]
  · rw [ll_create_texture_of_fits _ _ _ _ (by decide) (by decide)]
    simp [PixelFormat.isPlanarYuv, SDL_PIXELFORMAT_RGBA8888, SDL_PIXELFORMAT_YV12,
      SDL_PIXELFORMAT_IYUV]

/-- Witness for C2: a 4 by 6 YV12 creation passes validation and a
2^31-wide YV12 creation fails with the width overflow error. -/
theorem ll_create_texture_validation_witness :
    ll_create_texture ⟨SDL_PIXELFORMAT_YV12⟩ .static 4 6 = .ok () ∧
    ll_create_texture ⟨SDL_PIXELFORMAT_YV12⟩ .static (2 ^ 31) 6 =
      .error (.widthOverflows (2 ^ 31)) :=
  ⟨(ll_create_texture_validation.2.2.1 ⟨SDL_PIXELFORMAT_YV12⟩ .static 4 6 (by decide)
      (by decide) (Or.inl rfl)).1.mpr (by decide),
   ll_create_texture_validation.1 ⟨SDL_PIXELFORMAT_YV12⟩ .static (2 ^ 31) 6 (by decide)⟩

/-- Helper: after k next calls, the driver iterator holds index min k n. -/
theorem drivers_iterate (names : Int → String) (n : Int) (hn : 0 ≤ n) (k : Nat) :
    (DriverIterator.step names)^[k] (drivers n) = ⟨n, min (k : Int) n⟩ := by
  induction k with
  | zero =>
      simp only [Function.iterate_zero, id_eq, drivers]
      congr 1
      omega
  | succ k ih =>
      rw [Function.iterate_succ_apply', ih]
      simp only [DriverIterator.step, DriverIterator.next]
      by_cases h : (k : Int) < n
      · rw [if_neg (by simp; omega)]
        simp only []
        congr 1
        push_cast
        omega
      · rw [if_pos (by simp; omega)]
        simp only []
        congr 1
        push_cast
        omega

/-- C9: iterating the iterator returned by drivers yields exactly the n
driver names in index order (the k-th next call returns the name at index
k for k below n) and then yields none forever; drivers always returns a
fresh iterator at index 0 over the same length, so enumeration is
restartable; the iterator is a pure value of the compiled-in count and
name table alone, needing no other state. -/
theorem drivers_enumeration :
    ∀ (n : Int) (names : Int → String), 0 ≤ n →
      (∀ k : Nat, (k : Int) < n →
        (((DriverIterator.step names)^[k] (drivers n)).next names).1 =
          Option.some (names k)) ∧
      (∀ k : Nat, n ≤ (k : Int) →
        (((DriverIterator.step names)^[k] (drivers n)).next names).1 = Option.none) ∧
      (drivers n).index = 0 ∧ (drivers n).length = n := by
  intro n names hn
  refine ⟨?_, ?_, rfl, rfl⟩
  · intro k hk
    rw [drivers_iterate names n hn k, min_eq_left (by omega : (k : Int) ≤ n)]
    simp only [DriverIterator.next]
    rw [if_neg (by omega : ¬ ((k : Int) ≥ n))]
  · intro k hk
    rw [drivers_iterate names n hn k, min_eq_right (by omega : n ≤ (k : Int))]
    simp only [DriverIterator.next]
    rw [if_pos (le_refl n)]

/-- Witness for C9 with two compiled-in drivers: the first next call
yields the driver at index 0 and the fourth call yields none. -/
theorem drivers_enumeration_witness :
    (((DriverIterator.step (fun _ => "gpu"))^[0] (drivers 2)).next (fun _ => "gpu")).1 =
      Option.some "gpu" ∧
    (((DriverIterator.step (fun _ => "gpu"))^[3] (drivers 2)).next (fun _ => "gpu")).1 =
      Option.none :=
  ⟨(drivers_enumeration 2 (fun _ => "gpu") (by decide)).1 0 (by decide),
   (drivers_enumeration 2 (fun _ => "gpu") (by decide)).2.1 3 (by decide)⟩

/-- C7: the error surface is two-tiered.  set_draw_color, clear,
set_viewport and set_clip_rect return no error value: each panics with a
descriptive message exactly when the engine call fails, and returns
normally otherwise.  set_scale, the draw primitives, copy and copy_ex
return a recoverable result carrying the engine last-error exactly when
the engine call fails, and texture creation and texture update return a
recoverable result carrying either the engine last-error or a dedicated
validation error. -/
theorem error_surface_two_tiered :
    ∀ e : String,
      set_draw_color true e = .ret () ∧
      set_draw_color false e = .panicked e ∧
      clear true e = .ret () ∧
      clear false e = .panicked ("Could not clear: " ++ e) ∧
      set_viewport true e = .ret () ∧
      set_viewport false e = .panicked ("Could not set viewport: " ++ e) ∧
      set_clip_rect true e = .ret () ∧
      set_clip_rect false e = .panicked ("Could not set clip rect: " ++ e) ∧
      set_scale true e = .ok () ∧
      set_scale false e = .error e ∧
      draw_point true e = .ok () ∧
      draw_point false e = .error e ∧
      copy true e = .ok () ∧
      copy false e = .error e ∧
      copy_ex true e = .ok () ∧
      copy_ex false e = .error e ∧
      create_texture ⟨SDL_PIXELFORMAT_RGBA8888⟩ .static 64 64 true e =
        .error (.sdlError e) ∧
      create_texture ⟨SDL_PIXELFORMAT_RGBA8888⟩ .static 64 64 false e = .ok () ∧
      create_texture ⟨SDL_PIXELFORMAT_YV12⟩ .static 63 64 true e =
        .error (.widthMustBeMultipleOfTwoForFormat 63 ⟨SDL_PIXELFORMAT_YV12⟩) ∧
      update ⟨SDL_PIXELFORMAT_RGBA8888⟩ Option.none 4 (.error (.sdlError e)) =
        .error (.sdlError e) ∧
      update ⟨SDL_PIXELFORMAT_RGBA8888⟩ Option.none 4 (.ok ()) = .ok () := by
  intro e
  exact ⟨rfl, rfl, rfl, rfl, rfl, rfl, rfl, rfl, rfl, rfl, rfl, rfl, rfl, rfl, rfl, rfl,
    rfl, rfl, rfl, rfl, rfl⟩

/-- C5 counterexample: starting from the original target (raw 0) and
redirecting to a texture with raw pointer 7, a closure that panics
immediately leaves the engine target at 7 — the restoration step is
skipped on the panicking exit, so the saved target 0 is not restored. -/
theorem with_texture_canvas_panic_cex :
    with_texture_canvas (fun _ => true) "" ⟨0⟩ 7 (fun s => .panicked s) =
      CanvasOutcome.panicked ⟨7⟩ ∧ (7 : Nat) ≠ 0 :=
  ⟨rfl, by decide⟩

/-- C5 amended: with_texture_canvas saves the current target, redirects to
the texture and runs the closure; when the closure returns normally the
saved target is restored and ok is returned, but when the closure panics
the panic propagates with the renderer state the closure left behind and
the restoration step is skipped.  The engine is modelled as accepting
every target. -/
theorem with_texture_canvas_restores_on_normal_return :
    ∀ (lastError : String) (s : RenderState) (textureRaw : Nat)
      (f : RenderState → CanvasOutcome Unit),
      (∀ (s2 : RenderState) (u : Unit), f ⟨textureRaw⟩ = .ret s2 u →
        with_texture_canvas (fun _ => true) lastError s textureRaw f =
          .ret ⟨s.target⟩ (.ok ())) ∧
      (∀ s2 : RenderState, f ⟨textureRaw⟩ = .panicked s2 →
        with_texture_canvas (fun _ => true) lastError s textureRaw f = .panicked s2) := by
  intro lastError s textureRaw f
  constructor
  · intro s2 u hf
    simp [with_texture_canvas, hf]
  · intro s2 hf
    simp [with_texture_canvas, hf]

/-- Witness for C5: a closure that returns normally has the saved target 3
restored after it ran with the target redirected to 7. -/
theorem with_texture_canvas_restores_witness :
    with_texture_canvas (fun _ => true) "" ⟨3⟩ 7 (fun s => .ret s ()) =
      CanvasOutcome.ret ⟨3⟩ (.ok ()) :=
  (with_texture_canvas_restores_on_normal_return "" ⟨3⟩ 7 (fun s => .ret s ())).1 ⟨7⟩ () rfl

/-- C6 counterexample: when the native lock succeeds and the closure
panics, with_lock exits with the texture still locked — the unlock call is
skipped on the panicking exit path. -/
theorem with_lock_panic_cex :
    with_lock (Option.some (4, fun _ => 0)) "e" ⟨SDL_PIXELFORMAT_RGBA8888⟩ 2
      Option.none (fun _ _ => (LockOutcome.panicked : LockOutcome Unit)) =
      (LockOutcome.panicked, true) :=
  rfl

/-- C6 amended: when the native lock fails, with_lock returns the engine
last-error without invoking the closure (the result is the same for every
closure); when the lock succeeds, the byte slice passed to the closure has
length equal to the format byte size computed from the returned pitch and
the rect height (or the texture height when rect is none), a normally
returning closure has its result wrapped in ok with the lock released
before the result is propagated, and a panicking closure propagates the
panic with the texture still locked. -/
theorem with_lock_characterization :
    ∀ (α : Type) (lastError : String) (format : PixelFormat) (texHeight : Nat)
      (rect : Option Rect) (f g : List Nat → Nat → LockOutcome α),
      (with_lock Option.none lastError format texHeight rect f =
        (.ret (.error lastError), false) ∧
       with_lock Option.none lastError format texHeight rect f =
        with_lock Option.none lastError format texHeight rect g) ∧
      (∀ (pitch : Nat) (mem : Nat → Nat),
        (locked_interior format pitch mem (lock_height rect texHeight)).length =
          byte_size_from_pitch_and_height format pitch (lock_height rect texHeight) ∧
        (∀ a : α,
          f (locked_interior format pitch mem (lock_height rect texHeight)) pitch = .ret a →
          with_lock (Option.some (pitch, mem)) lastError format texHeight rect f =
            (.ret (.ok a), false)) ∧
        (f (locked_interior format pitch mem (lock_height rect texHeight)) pitch = .panicked →
          with_lock (Option.some (pitch, mem)) lastError format texHeight rect f =
            (.panicked, true))) := by
  intro α lastError format texHeight rect f g
  refine ⟨⟨rfl, rfl⟩, ?_⟩
  intro pitch mem
  refine ⟨by simp [locked_interior], ?_, ?_⟩
  · intro a hf
    simp [with_lock, hf]
  · intro hf
    simp [with_lock, hf]

/-- Witness for C6: a closure returning the pitch it was given yields ok 4
with the lock released, on a 2-row texture locked with pitch 4. -/
theorem with_lock_characterization_witness :
    with_lock (Option.some (4, fun _ => 0)) "e" ⟨SDL_PIXELFORMAT_RGBA8888⟩ 2
      Option.none (fun _ pitch => LockOutcome.ret pitch) =
      (LockOutcome.ret (.ok 4), false) :=
  ((with_lock_characterization Nat "e" ⟨SDL_PIXELFORMAT_RGBA8888⟩ 2 Option.none
      (fun _ pitch => LockOutcome.ret pitch) (fun _ pitch => LockOutcome.ret pitch)).2
    4 (fun _ => 0)).2.1 4 rfl

/-- C8: the TargetRenderError type has a single variant carrying the
engine last-error string, so the two failure causes the documentation
names cannot be distinguished in the returned value: every failing
with_texture_canvas call yields sdlError of the last-error. -/
theorem targetRenderError_single_variant :
    (∀ err : TargetRenderError, ∃ s : String, err = .sdlError s) ∧
    (∀ (setTargetOk : Nat → Bool) (lastError : String) (s : RenderState)
      (textureRaw : Nat) (f : RenderState → CanvasOutcome Unit)
      (s2 : RenderState) (err : TargetRenderError),
      with_texture_canvas setTargetOk lastError s textureRaw f = .ret s2 (.error err) →
      err = .sdlError lastError) := by
  constructor
  · intro err
    cases err with
    | sdlError s => exact ⟨s, rfl⟩
  · intro setTargetOk lastError s textureRaw f s2 err h
    unfold with_texture_canvas at h
    by_cases h1 : setTargetOk textureRaw
    · rw [if_pos h1] at h
      cases hf : f ⟨textureRaw⟩ with
      | panicked s3 =>
          rw [hf] at h
          simp at h
      | ret s3 u =>
          rw [hf] at h
          by_cases h2 : setTargetOk s.target
          · simp [h2] at h
          · simp [h2] at h
            exact h.2.symm
    · rw [if_neg h1] at h
      simp at h
      exact h.2.symm

/-- Witness for C8: a redirection refused by the engine yields exactly
sdlError of the last-error string. -/
theorem targetRenderError_single_variant_witness :
    TargetRenderError.sdlError "x" = TargetRenderError.sdlError "x" :=
  targetRenderError_single_variant.2 (fun _ => false) "x" ⟨0⟩ 7 (fun s => .ret s ())
    ⟨0⟩ (.sdlError "x") rfl

/-- C1: failing input for the pitch validation of update_yuv.  On a 4 by 2
texture with no rect, a y pitch of 2^32 (with matching plane lengths and
zero u and v pitches) does not fit the native c_int width, yet every
validation passes and the native engine is called — the result is the
native outcome whatever it is — because the source validates
validate_int(y_pitch as u32) and the cast truncates 2^32 to 0. -/
theorem update_yuv_pitch_truncation_bug :
    (∀ native : Except UpdateTextureYUVError Unit,
      update_yuv 4 2 Option.none (2 ^ 33) (2 ^ 32) 0 0 0 0 native = native) ∧
    maxCInt < 2 ^ 32 :=
  ⟨fun _ => rfl, by decide⟩

/-- C3: failing input for the pitch validation of update on a planar YUV
texture.  With an even rect at the origin of size 2 by 2, a pitch of 2^32
is even but does not fit the native c_int width, yet validation succeeds
and the native engine is called — the result is the native outcome
whatever it is — because the source validates validate_int(pitch as u32)
and the cast truncates 2^32 to 0. -/
theorem update_pitch_truncation_bug :
    (∀ native : Except UpdateTextureError Unit,
      update ⟨SDL_PIXELFORMAT_YV12⟩ (Option.some ⟨0, 0, 2, 2⟩) (2 ^ 32) native = native) ∧
    maxCInt < 2 ^ 32 ∧ (2 ^ 32) % 2 = 0 :=
  ⟨fun _ => rfl, by decide, by decide⟩

/-- C10: on a planar YUV texture with rect none, update validates only the
pitch: an odd pitch is rejected with the dedicated parity error, an even
pitch beyond the native c_int width is rejected with the overflow error,
and an even fitting pitch forwards straight to the native engine.  The
update wrapper reads nothing but the texture format, so no parity check
touches the texture width or height and a whole-texture update of an
odd-dimensioned YUV texture passes validation. -/
theorem update_none_rect_only_pitch_checked :
    ∀ (format : PixelFormat) (pitch : Nat) (native : Except UpdateTextureError Unit),
      format.isPlanarYuv → pitch < u32Mod →
      (pitch % 2 ≠ 0 →
        update format Option.none pitch native =
          .error (.pitchMustBeMultipleOfTwoForFormat pitch format)) ∧
      (pitch % 2 = 0 → maxCInt < pitch →
        update format Option.none pitch native = .error (.pitchOverflows pitch)) ∧
      (pitch % 2 = 0 → pitch ≤ maxCInt →
        update format Option.none pitch native = native) := by
  intro format pitch native hyuv hlt
  have hmod : pitch % u32Mod = pitch := Nat.mod_eq_of_lt hlt
  refine ⟨?_, ?_, ?_⟩
  · intro hodd
    simp [update, hyuv, hodd, throw, throwThe, MonadExceptOf.throw, bind, Except.bind, pure, Except.pure]
  · intro heven hbig
    simp [update, hyuv, heven, validate_int, hmod, Nat.not_le.mpr hbig, throw, throwThe,
      MonadExceptOf.throw, bind, Except.bind, pure, Except.pure]
  · intro heven hfits
    simp [update, hyuv, heven, validate_int, hmod, hfits, throw, throwThe,
      MonadExceptOf.throw, bind, Except.bind, pure, Except.pure]

/-- Witness for C10: a whole-texture update with the even fitting pitch 4
forwards to the native engine, whose ok outcome is returned. -/
theorem update_none_rect_only_pitch_checked_witness :
    update ⟨SDL_PIXELFORMAT_YV12⟩ Option.none 4 (.ok ()) = .ok () :=
  (update_none_rect_only_pitch_checked ⟨SDL_PIXELFORMAT_YV12⟩ 4 (.ok ())
    (Or.inl rfl) (by decide)).2.2 (by decide) (by decide)

end Sdl3
